import Mathlib

/-!
Verification of the two scripts of the `jumpz_ios` repository:
`fix_icon.py` (function `fix_icon_transparency`) and `resize_logo.py`
(function `resize_logo`).  The scripts are shallowly embedded: PIL images
become a record of mode, dimensions and a pixel function; the file system
becomes an explicit record threaded through the operations; the OS-level
faults that a real `os.makedirs` or file write may raise are modelled by
explicit fault sets in the file-system state; Python exceptions become an
`Except` result.
-/

namespace Jumpz

/-- The PIL color modes relevant to these scripts: `RGBA` and `LA` carry an
alpha channel, `RGB` and `L` do not. -/
inductive Mode
  | RGBA
  | LA
  | RGB
  | L
deriving DecidableEq

/-- Whether a mode carries an alpha channel. -/
def Mode.hasAlpha : Mode → Bool
  | .RGBA => true
  | .LA => true
  | _ => false

/-- A pixel value, one constructor per supported mode. -/
inductive Pix
  | rgba (r g b a : Nat)
  | la (l a : Nat)
  | rgb (r g b : Nat)
  | gray (l : Nat)
deriving DecidableEq

/-- PIL conversion of a pixel to an RGB triple: alpha is dropped, a
luminance value is replicated into the three channels. -/
def Pix.toRGB : Pix → Nat × Nat × Nat
  | .rgba r g b _ => (r, g, b)
  | .la l _ => (l, l, l)
  | .rgb r g b => (r, g, b)
  | .gray l => (l, l, l)

/-- The alpha band of a pixel; modes without alpha are fully opaque. -/
def Pix.alphaBand : Pix → Nat
  | .rgba _ _ _ a => a
  | .la _ a => a
  | _ => 255

/-- The value of a pixel read as a single grayscale band (used when an
image is a paste mask). -/
def Pix.grayValue : Pix → Nat
  | .rgba r _ _ _ => r
  | .la l _ => l
  | .rgb r _ _ => r
  | .gray l => l

/-- A PIL image: color mode, dimensions, pixel data and the source file
format (PIL's `Image.format`, `none` for images created in memory). -/
structure Image where
  mode : Mode
  width : Nat
  height : Nat
  px : Nat → Nat → Pix
  format : Option String

/-- Linear interpolation of one channel by a mask value `m` out of 255,
as PIL's masked paste does; exact at the endpoints `m = 0` (background)
and `m = 255` (source). -/
def blend (b s m : Nat) : Nat := (b * (255 - m) + s * m) / 255

/-- `Image.new('RGB', size, (r, g, b))`: a solid canvas. -/
def Image.newRGB (w h r g b : Nat) : Image :=
  { mode := .RGB, width := w, height := h, px := fun _ _ => .rgb r g b,
    format := none }

/-- `img.split()[-1]`: the last band of the image as a grayscale image;
for an alpha mode this is the alpha channel. -/
def Image.lastBand (img : Image) : Image :=
  { mode := .L, width := img.width, height := img.height,
    px := fun x y => .gray ((img.px x y).alphaBand), format := none }

/-- `background.paste(img, mask)` for a full-size paste at the origin:
the source is converted to the background's RGB mode; without a mask it
replaces the background everywhere, with a mask each channel is blended
by the mask value. -/
def pastePix (bgp srcp : Pix) (maskp : Option Pix) : Pix :=
  match maskp with
  | none => .rgb (srcp.toRGB).1 (srcp.toRGB).2.1 (srcp.toRGB).2.2
  | some mp =>
      .rgb (blend (bgp.toRGB).1 (srcp.toRGB).1 mp.grayValue)
        (blend (bgp.toRGB).2.1 (srcp.toRGB).2.1 mp.grayValue)
        (blend (bgp.toRGB).2.2 (srcp.toRGB).2.2 mp.grayValue)

def Image.paste (bg src : Image) (mask : Option Image) : Image :=
  { bg with px := fun x y =>
      pastePix (bg.px x y) (src.px x y) (mask.map (fun m => m.px x y)) }

/-- One pixel of `img.convert('RGB')`. -/
def convertPix (p : Pix) : Pix :=
  .rgb (p.toRGB).1 (p.toRGB).2.1 (p.toRGB).2.2

/-- `img.convert('RGB')`: drop alpha / replicate luminance, no
compositing. -/
def Image.convertRGB (img : Image) : Image :=
  { img with mode := .RGB, px := fun x y => convertPix (img.px x y) }

/-- The image as re-decoded after being saved in format `fmt`. -/
def Image.withFormat (img : Image) (fmt : String) : Image :=
  { img with format := some fmt }

/-- The transformation applied by `fix_icon_transparency` to the opened
image (lines 16-25 of `fix_icon.py`): for `RGBA` or `LA`, paste onto a
white RGB canvas — with the alpha band as mask in the `RGBA` case, with
no mask in the `LA` case; other non-`RGB` modes are converted to `RGB`;
`RGB` is left unchanged. -/
def stripAlpha (img : Image) : Image :=
  if img.mode = .RGBA ∨ img.mode = .LA then
    let background := Image.newRGB img.width img.height 255 255 255
    if img.mode = .RGBA then
      background.paste img (some img.lastBand)
    else
      background.paste img none
  else if ¬ img.mode = .RGB then
    img.convertRGB
  else
    img

/-- A Python exception: a decode failure from `Image.open`, or an OS
error carrying the offending path. -/
inductive PyErr
  | notAnImage
  | ioFailure (path : String)
deriving DecidableEq

/-- Contents of a file: an encoded image, or bytes that are not a
decodable image. -/
inductive FileData
  | image (img : Image)
  | raw

/-- The file-system state: existing directories, files as an association
list from path to contents, and the environment's fault model — paths on
which directory creation or a file write raises an `OSError`. -/
structure FS where
  dirs : List String
  files : List (String × FileData)
  failingDirs : List String
  failingWrites : List String

/-- Path lookup in the file association list (newest entry first). -/
def lookupFile : List (String × FileData) → String → Option FileData
  | [], _ => none
  | e :: rest, p => if e.1 = p then some e.2 else lookupFile rest p

/-- String membership in a list of paths. -/
def containsStr : List String → String → Bool
  | [], _ => false
  | a :: rest, p => if a = p then true else containsStr rest p

/-- Read a file's contents. -/
def FS.readFile (fs : FS) (p : String) : Option FileData :=
  lookupFile fs.files p

/-- `os.path.exists` for a file path. -/
def FS.fileExists (fs : FS) (p : String) : Bool :=
  (fs.readFile p).isSome

/-- Write (create or overwrite) a file. -/
def FS.setFile (fs : FS) (p : String) (d : FileData) : FS :=
  { fs with files := (p, d) :: fs.files }

/-- The state change of a successful `os.makedirs(p, exist_ok=True)`. -/
def FS.addDir (fs : FS) (p : String) : FS :=
  { fs with dirs := if containsStr fs.dirs p then fs.dirs else p :: fs.dirs }

/-- `os.makedirs(p, exist_ok=True)`: raises only on an environment
fault; an already existing directory is tolerated. -/
def FS.makedirs (fs : FS) (p : String) : Except PyErr FS :=
  if containsStr fs.failingDirs p then .error (.ioFailure p)
  else .ok (fs.addDir p)

/-- `img.save(path, fmt)`: raises on an environment fault, otherwise
writes the image encoded in format `fmt`. -/
def FS.save (fs : FS) (path : String) (img : Image) (fmt : String) :
    Except PyErr FS :=
  if containsStr fs.failingWrites path then .error (.ioFailure path)
  else .ok (fs.setFile path (.image (img.withFormat fmt)))

/-- `Image.open(path)`: returns the decoded image, raises if the file is
missing or not a decodable image. -/
def FS.pilOpen (fs : FS) (p : String) : Except PyErr Image :=
  match fs.readFile p with
  | some (.image i) => .ok i
  | some .raw => .error .notAnImage
  | none => .error (.ioFailure p)

/-- The hard-coded icon path of `fix_icon.py`. -/
def iconPath : String :=
  "ios/Runner/Assets.xcassets/AppIcon.appiconset/Icon-App-1024x1024@1x.png"

/-- `fix_icon_transparency` (lines 8-31 of `fix_icon.py`): on an existing
file, open it, apply `stripAlpha`, save back as PNG to the same path and
report success; on a missing file, report not-found and do nothing.
There is no exception handler: an error during open or save propagates
as an `.error` result. -/
def fixIconTransparency (fs : FS) : Except PyErr (FS × String) :=
  if fs.fileExists iconPath then
    match fs.pilOpen iconPath with
    | .error e => .error e
    | .ok img =>
        let img2 := stripAlpha img
        match fs.save iconPath img2 "PNG" with
        | .error e => .error e
        | .ok fs2 => .ok (fs2, "✅ Fixed transparency in " ++ iconPath)
  else
    .ok (fs, "❌ Icon file not found: " ++ iconPath)

/-- The resampling filters of `PIL.Image.Resampling`. -/
inductive Filter
  | nearest
  | bilinear
  | bicubic
  | lanczos
deriving DecidableEq

/-- A resampling kernel: given the filter, the source image and the new
dimensions, it produces the pixel at each coordinate.  The numeric
kernels live inside PIL; the development is parametric in them — the
claims depend only on the kernel being a function of its inputs. -/
def Resample : Type :=
  Filter → Image → Nat → Nat → Nat → Nat → Pix

/-- `img.resize((w, h), filter)`: a new image of the requested
dimensions, same color mode, pixels produced by the kernel; the new
image has no source file format. -/
def Image.resize (K : Resample) (img : Image) (w h : Nat) (f : Filter) :
    Image :=
  { mode := img.mode, width := w, height := h, px := K f img w h,
    format := none }

/-- The density list of `resize_logo.py`, in source order. -/
def densities : List (String × Nat) :=
  [("mipmap-mdpi", 48),
   ("mipmap-hdpi", 72),
   ("mipmap-xhdpi", 96),
   ("mipmap-xxhdpi", 144),
   ("mipmap-xxxhdpi", 192)]

/-- `folder_path = f"android/app/src/main/res/\x7bfolder\x7d"`. -/
def resDir (folder : String) : String :=
  "android/app/src/main/res/" ++ folder

/-- `output_path = f"\x7bfolder_path\x7d/ic_launcher.png"`. -/
def outPath (folder : String) : String :=
  resDir folder ++ "/ic_launcher.png"

/-- An observable file-system action of the resize loop, in the order
performed. -/
inductive Event
  | mkdir (path : String)
  | write (path : String)
deriving DecidableEq

/-- The body of the `for folder, size in densities` loop of
`resize_logo.py` (lines 32-44): for each target, create the directory,
resize with `LANCZOS`, save as PNG.  Returns the file system after the
steps that ran, the trace of completed actions, and the first raised
exception if any (later targets do not run after a raise). -/
def processTargets (K : Resample) (img : Image) :
    List (String × Nat) → FS → FS × List Event × Option PyErr
  | [], fs => (fs, [], none)
  | (folder, size) :: rest, fs =>
      match fs.makedirs (resDir folder) with
      | .error e => (fs, [], some e)
      | .ok fs1 =>
          match fs1.save (outPath folder)
              (Image.resize K img size size .lanczos) "PNG" with
          | .error e => (fs1, [.mkdir (resDir folder)], some e)
          | .ok fs2 =>
              match processTargets K img rest fs2 with
              | (fs3, evs, err) =>
                  (fs3, .mkdir (resDir folder) :: .write (outPath folder)
                    :: evs, err)

/-- `resize_logo` (lines 11-53 of `resize_logo.py`): missing `logo.png`
returns `false` with nothing done; otherwise the image is opened and the
five targets processed inside a `try` whose handler turns any exception
into the return value `false`; full success returns `true`.  The result
carries the final file system and the trace of completed actions. -/
def resizeLogo (K : Resample) (fs : FS) : Bool × FS × List Event :=
  if fs.fileExists "logo.png" = false then (false, fs, [])
  else
    match fs.pilOpen "logo.png" with
    | .error _ => (false, fs, [])
    | .ok img =>
        match processTargets K img densities fs with
        | (fs1, evs, none) => (true, fs1, evs)
        | (fs1, evs, some _) => (false, fs1, evs)

/-- The file-system state after a fully successful run of the loop. -/
def runFS (K : Resample) (img : Image) (fs : FS) : FS :=
  let put := fun (fs' : FS) (folder : String) (size : Nat) =>
    (fs'.addDir (resDir folder)).setFile (outPath folder)
      (.image ((Image.resize K img size size .lanczos).withFormat "PNG"))
  put (put (put (put (put fs "mipmap-mdpi" 48) "mipmap-hdpi" 72)
    "mipmap-xhdpi" 96) "mipmap-xxhdpi" 144) "mipmap-xxxhdpi" 192

/-- The action trace of a fully successful run, in order. -/
def fullTrace : List Event :=
  [.mkdir (resDir "mipmap-mdpi"), .write (outPath "mipmap-mdpi"),
   .mkdir (resDir "mipmap-hdpi"), .write (outPath "mipmap-hdpi"),
   .mkdir (resDir "mipmap-xhdpi"), .write (outPath "mipmap-xhdpi"),
   .mkdir (resDir "mipmap-xxhdpi"), .write (outPath "mipmap-xxhdpi"),
   .mkdir (resDir "mipmap-xxxhdpi"), .write (outPath "mipmap-xxxhdpi")]

/-! Concrete instances used to exercise the theorems. -/

/-- A trivial resampling kernel. -/
def K0 : Resample := fun _ _ _ _ _ _ => .rgb 0 0 0

/-- A 1×1 fully transparent RGBA image. -/
def rgbaClear : Image :=
  { mode := .RGBA, width := 1, height := 1, px := fun _ _ => .rgba 7 8 9 0,
    format := some "PNG" }

/-- A 1×1 fully transparent black grayscale-with-alpha image. -/
def laClear : Image :=
  { mode := .LA, width := 1, height := 1, px := fun _ _ => .la 0 0,
    format := some "PNG" }

/-- A 1×1 opaque image whose file was encoded as JPEG. -/
def jpegIcon : Image :=
  { mode := .RGBA, width := 1, height := 1,
    px := fun _ _ => .rgba 10 20 30 255, format := some "JPEG" }

/-- A 2×2 opaque RGBA logo. -/
def demoLogo : Image :=
  { mode := .RGBA, width := 2, height := 2,
    px := fun _ _ => .rgba 1 2 3 255, format := some "PNG" }

/-- An empty file system. -/
def fsEmpty : FS :=
  { dirs := [], files := [], failingDirs := [], failingWrites := [] }

/-- A file system holding a transparent RGBA icon at the icon path. -/
def fsIcon : FS :=
  { dirs := [], files := [(iconPath, .image rgbaClear)], failingDirs := [],
    failingWrites := [] }

/-- A file system whose icon file is not a decodable image. -/
def fsRawIcon : FS :=
  { dirs := [], files := [(iconPath, .raw)], failingDirs := [],
    failingWrites := [] }

/-- A file system whose icon file was encoded as JPEG. -/
def fsJpegIcon : FS :=
  { dirs := [], files := [(iconPath, .image jpegIcon)], failingDirs := [],
    failingWrites := [] }

/-- A file system holding a valid `logo.png`. -/
def fsLogo : FS :=
  { dirs := [], files := [("logo.png", .image demoLogo)], failingDirs := [],
    failingWrites := [] }

/-- A file system holding a valid `logo.png` where the write of the
second density target raises. -/
def fsLogoBadWrite : FS :=
  { dirs := [], files := [("logo.png", .image demoLogo)], failingDirs := [],
    failingWrites := [outPath "mipmap-hdpi"] }

/-- The file system after fixing the transparent icon of `fsIcon`. -/
def fsIconOut : FS :=
  fsIcon.setFile iconPath (.image ((stripAlpha rgbaClear).withFormat "PNG"))

/-- The format recorded in the icon file after running the fixer on the
JPEG-encoded icon. -/
def fixJpegFormat : Option String :=
  match fixIconTransparency fsJpegIcon with
  | .ok (fs', _) =>
      match fs'.readFile iconPath with
      | some (.image i) => i.format
      | _ => none
  | .error _ => none

/-! Basic lemmas about the file-system model. -/

@[simp]
theorem FS.files_addDir (fs : FS) (p : String) :
    (fs.addDir p).files = fs.files := rfl

@[simp]
theorem FS.failingDirs_addDir (fs : FS) (p : String) :
    (fs.addDir p).failingDirs = fs.failingDirs := rfl

@[simp]
theorem FS.failingWrites_addDir (fs : FS) (p : String) :
    (fs.addDir p).failingWrites = fs.failingWrites := rfl

@[simp]
theorem FS.dirs_setFile (fs : FS) (p : String) (d : FileData) :
    (fs.setFile p d).dirs = fs.dirs := rfl

@[simp]
theorem FS.failingDirs_setFile (fs : FS) (p : String) (d : FileData) :
    (fs.setFile p d).failingDirs = fs.failingDirs := rfl

@[simp]
theorem FS.failingWrites_setFile (fs : FS) (p : String) (d : FileData) :
    (fs.setFile p d).failingWrites = fs.failingWrites := rfl

@[simp]
theorem FS.readFile_addDir (fs : FS) (p q : String) :
    (fs.addDir p).readFile q = fs.readFile q := rfl

@[simp]
theorem FS.readFile_setFile (fs : FS) (p q : String) (d : FileData) :
    (fs.setFile p d).readFile q = if p = q then some d else fs.readFile q :=
  rfl

@[simp]
theorem FS.fileExists_addDir (fs : FS) (p q : String) :
    (fs.addDir p).fileExists q = fs.fileExists q := rfl

@[simp]
theorem FS.fileExists_setFile (fs : FS) (p q : String) (d : FileData) :
    (fs.setFile p d).fileExists q =
      if p = q then true else fs.fileExists q := by
  unfold FS.fileExists
  rw [FS.readFile_setFile]
  split <;> simp

@[simp]
theorem containsStr_nil (p : String) : containsStr [] p = false := rfl

theorem FS.pilOpen_ok_iff (fs : FS) (p : String) (img : Image) :
    fs.pilOpen p = .ok img ↔ fs.readFile p = some (.image img) := by
  unfold FS.pilOpen
  cases h : fs.readFile p with
  | none => simp
  | some d => cases d <;> simp

theorem FS.fileExists_of_pilOpen (fs : FS) (p : String) (img : Image)
    (h : fs.pilOpen p = .ok img) : fs.fileExists p = true := by
  rw [FS.pilOpen_ok_iff] at h
  unfold FS.fileExists
  rw [h]
  rfl

/-! Lemmas about the image operations of `fix_icon.py`. -/

@[simp]
theorem Image.mode_withFormat (img : Image) (fmt : String) :
    (img.withFormat fmt).mode = img.mode := rfl

@[simp]
theorem Image.width_withFormat (img : Image) (fmt : String) :
    (img.withFormat fmt).width = img.width := rfl

@[simp]
theorem Image.height_withFormat (img : Image) (fmt : String) :
    (img.withFormat fmt).height = img.height := rfl

@[simp]
theorem Image.format_withFormat (img : Image) (fmt : String) :
    (img.withFormat fmt).format = some fmt := rfl

theorem blend_mask_zero (b s : Nat) : blend b s 0 = b := by
  simp [blend]

theorem blend_mask_full (b s : Nat) : blend b s 255 = s := by
  simp [blend]

theorem stripAlpha_mode (img : Image) : (stripAlpha img).mode = .RGB := by
  unfold stripAlpha
  split
  · split <;> rfl
  · split
    · rfl
    · rename_i h1 h2
      exact not_not.mp h2

theorem stripAlpha_width (img : Image) :
    (stripAlpha img).width = img.width := by
  unfold stripAlpha
  split
  · split <;> rfl
  · split <;> rfl

theorem stripAlpha_height (img : Image) :
    (stripAlpha img).height = img.height := by
  unfold stripAlpha
  split
  · split <;> rfl
  · split <;> rfl

theorem stripAlpha_rgba_px (img : Image) (x y r g b a : Nat)
    (hm : img.mode = .RGBA) (hp : img.px x y = .rgba r g b a) :
    (stripAlpha img).px x y =
      .rgb (blend 255 r a) (blend 255 g a) (blend 255 b a) := by
  simp [stripAlpha, hm, Image.paste, Image.newRGB, Image.lastBand,
    pastePix, hp, Pix.toRGB, Pix.alphaBand, Pix.grayValue]

theorem stripAlpha_la_px (img : Image) (x y l a : Nat)
    (hm : img.mode = .LA) (hp : img.px x y = .la l a) :
    (stripAlpha img).px x y = .rgb l l l := by
  simp [stripAlpha, hm, Image.paste, Image.newRGB, pastePix, hp,
    Pix.toRGB]

/-! The claims about `fix_icon.py`. -/

/-- Claim C1, corrected.  For an `RGBA` input the fixer composites onto a
solid opaque white canvas using the alpha channel as blend mask, so a
fully transparent pixel becomes white and a fully opaque pixel keeps the
input color at the same location.  For an `LA` input the paste is done
without a mask, so the alpha channel is ignored: every output pixel is
the input pixel's luminance replicated to RGB, whatever its alpha. -/
theorem claim_C1 (img : Image) (x y r g b l a : Nat) :
    (img.mode = .RGBA → img.px x y = .rgba r g b 0 →
      (stripAlpha img).px x y = .rgb 255 255 255) ∧
    (img.mode = .RGBA → img.px x y = .rgba r g b 255 →
      (stripAlpha img).px x y = .rgb r g b) ∧
    (img.mode = .LA → img.px x y = .la l a →
      (stripAlpha img).px x y = .rgb l l l) := by
  refine ⟨fun hm hp => ?_, fun hm hp => ?_, fun hm hp => ?_⟩
  · rw [stripAlpha_rgba_px img x y r g b 0 hm hp, blend_mask_zero,
      blend_mask_zero, blend_mask_zero]
  · rw [stripAlpha_rgba_px img x y r g b 255 hm hp, blend_mask_full,
      blend_mask_full, blend_mask_full]
  · exact stripAlpha_la_px img x y l a hm hp

/-- Witness for C1: a fully transparent RGBA pixel is turned white. -/
theorem claim_C1_witness :
    rgbaClear.mode = .RGBA ∧ rgbaClear.px 0 0 = .rgba 7 8 9 0 ∧
    (stripAlpha rgbaClear).px 0 0 = .rgb 255 255 255 :=
  ⟨rfl, rfl, (claim_C1 rgbaClear 0 0 7 8 9 0 0).1 rfl rfl⟩

/-- Counterexample to C1 as stated: on the fully transparent black `LA`
image the output pixel is black, not the white the claim requires for a
fully transparent pixel. -/
theorem claim_C1_cex :
    laClear.mode.hasAlpha = true ∧ (laClear.px 0 0).alphaBand = 0 ∧
    (stripAlpha laClear).px 0 0 = .rgb 0 0 0 ∧
    ¬ (stripAlpha laClear).px 0 0 = .rgb 255 255 255 := by
  refine ⟨rfl, rfl, ?_, ?_⟩ <;> decide

/-- Claim C5: whenever the fixer runs to completion on an input with an
alpha channel, the file written back decodes to an image whose mode has
no alpha channel and whose dimensions equal the input's. -/
theorem claim_C5 (fs fs' : FS) (img i : Image) (msg : String)
    (hopen : fs.pilOpen iconPath = .ok img)
    (halpha : img.mode.hasAlpha = true)
    (hrun : fixIconTransparency fs = .ok (fs', msg))
    (hread : fs'.readFile iconPath = some (.image i)) :
    i.mode.hasAlpha = false ∧ i.width = img.width ∧
      i.height = img.height := by
  have hex := FS.fileExists_of_pilOpen fs iconPath img hopen
  cases hw : containsStr fs.failingWrites iconPath with
  | true =>
      simp [fixIconTransparency, hex, hopen, FS.save, hw] at hrun
  | false =>
      simp [fixIconTransparency, hex, hopen, FS.save, hw] at hrun
      rw [← hrun.1] at hread
      simp at hread
      rw [← hread]
      refine ⟨?_, ?_, ?_⟩
      · rw [Image.mode_withFormat, stripAlpha_mode]
        rfl
      · rw [Image.width_withFormat, stripAlpha_width]
      · rw [Image.height_withFormat, stripAlpha_height]

/-- Witness for C5: the transparent demo icon is processed to an
alpha-free output of the same size. -/
theorem claim_C5_witness :
    fsIcon.pilOpen iconPath = .ok rgbaClear ∧
    rgbaClear.mode.hasAlpha = true ∧
    fixIconTransparency fsIcon =
      .ok (fsIconOut, "✅ Fixed transparency in " ++ iconPath) ∧
    fsIconOut.readFile iconPath =
      some (.image ((stripAlpha rgbaClear).withFormat "PNG")) ∧
    (((stripAlpha rgbaClear).withFormat "PNG").mode.hasAlpha = false ∧
      ((stripAlpha rgbaClear).withFormat "PNG").width = rgbaClear.width ∧
      ((stripAlpha rgbaClear).withFormat "PNG").height =
        rgbaClear.height) := by
  refine ⟨rfl, rfl, rfl, ?_, ?_⟩
  · simp [fsIconOut]
  · exact claim_C5 fsIcon fsIconOut rgbaClear
      ((stripAlpha rgbaClear).withFormat "PNG")
      ("✅ Fixed transparency in " ++ iconPath) rfl rfl rfl
      (by simp [fsIconOut])

/-- Claim C6, corrected.  For every input that opens successfully and
whose write does not fault, the result is written back to the same path,
overwriting the original and leaving every other path untouched — but it
is always encoded as PNG, which coincides with the input's format
exactly when the input already was a PNG. -/
theorem claim_C6 (fs : FS) (img : Image)
    (hopen : fs.pilOpen iconPath = .ok img)
    (hw : containsStr fs.failingWrites iconPath = false) :
    fixIconTransparency fs =
      .ok (fs.setFile iconPath
          (.image ((stripAlpha img).withFormat "PNG")),
        "✅ Fixed transparency in " ++ iconPath) ∧
    ((stripAlpha img).withFormat "PNG").format = some "PNG" ∧
    (∀ p, ¬ p = iconPath →
      (fs.setFile iconPath
          (.image ((stripAlpha img).withFormat "PNG"))).readFile p =
        fs.readFile p) := by
  have hex := FS.fileExists_of_pilOpen fs iconPath img hopen
  refine ⟨?_, rfl, ?_⟩
  · simp [fixIconTransparency, hex, hopen, FS.save, hw]
  · intro p hp
    rw [FS.readFile_setFile, if_neg (fun h => hp h.symm)]

/-- Witness for C6 (amended): the demo icon is written back to the icon
path in PNG format. -/
theorem claim_C6_witness :
    fsIcon.pilOpen iconPath = .ok rgbaClear ∧
    containsStr fsIcon.failingWrites iconPath = false ∧
    fixIconTransparency fsIcon =
      .ok (fsIcon.setFile iconPath
          (.image ((stripAlpha rgbaClear).withFormat "PNG")),
        "✅ Fixed transparency in " ++ iconPath) :=
  ⟨rfl, rfl, (claim_C6 fsIcon rgbaClear rfl rfl).1⟩

/-- Counterexample to C6 as stated: a JPEG-encoded input is written back
encoded as PNG, not in the input's file format. -/
theorem claim_C6_cex :
    jpegIcon.format = some "JPEG" ∧ fixJpegFormat = some "PNG" ∧
    ¬ fixJpegFormat = jpegIcon.format := by
  refine ⟨rfl, ?_, ?_⟩ <;> decide

/-- Claim C7: the fixer has no exception handler — once the existence
check has passed, an error raised while opening the file, or while
saving the transformed image, propagates out of the operation instead of
being converted into a reported-failure result. -/
theorem claim_C7 (fs : FS) (img : Image) (e : PyErr)
    (hex : fs.fileExists iconPath = true) :
    (fs.pilOpen iconPath = .error e →
      fixIconTransparency fs = .error e) ∧
    (fs.pilOpen iconPath = .ok img →
      fs.save iconPath (stripAlpha img) "PNG" = .error e →
      fixIconTransparency fs = .error e) := by
  constructor
  · intro hopen
    simp [fixIconTransparency, hex, hopen]
  · intro hopen hsave
    simp [fixIconTransparency, hex, hopen, hsave]

/-- Witness for C7: undecodable icon bytes make the fixer propagate the
decode error. -/
theorem claim_C7_witness :
    fsRawIcon.fileExists iconPath = true ∧
    fsRawIcon.pilOpen iconPath = .error .notAnImage ∧
    fixIconTransparency fsRawIcon = .error .notAnImage :=
  ⟨rfl, rfl, (claim_C7 fsRawIcon rgbaClear .notAnImage rfl).1 rfl⟩

/-- Claim C4: on a missing input file each script stops without raising
and without file-system side effects — the fixer returns the unchanged
state with the not-found message, and the resizer returns `false` with
the unchanged state and an empty action trace. -/
theorem claim_C4 (K : Resample) (fs1 fs2 : FS)
    (h1 : fs1.fileExists iconPath = false)
    (h2 : fs2.fileExists "logo.png" = false) :
    fixIconTransparency fs1 =
      .ok (fs1, "❌ Icon file not found: " ++ iconPath) ∧
    resizeLogo K fs2 = (false, fs2, []) := by
  constructor
  · simp [fixIconTransparency, h1]
  · simp [resizeLogo, h2]

/-! Lemmas about `resize_logo.py`. -/

theorem processTargets_all_ok (K : Resample) (img : Image) (fs : FS)
    (h3 : fs.failingDirs = []) (h4 : fs.failingWrites = []) :
    processTargets K img densities fs = (runFS K img fs, fullTrace, none)
    := by
  simp [densities, processTargets, FS.makedirs, FS.save, h3, h4,
    runFS, fullTrace]

theorem resizeLogo_run (K : Resample) (img : Image) (fs : FS)
    (h1 : fs.fileExists "logo.png" = true)
    (h2 : fs.pilOpen "logo.png" = .ok img)
    (h3 : fs.failingDirs = []) (h4 : fs.failingWrites = []) :
    resizeLogo K fs = (true, runFS K img fs, fullTrace) := by
  simp [resizeLogo, h1, h2, processTargets_all_ok K img fs h3 h4]

theorem readFile_runFS (K : Resample) (img : Image) (fs : FS)
    (p : String) :
    (runFS K img fs).readFile p =
      if outPath "mipmap-xxxhdpi" = p then
        some (.image ((Image.resize K img 192 192 .lanczos).withFormat
          "PNG"))
      else if outPath "mipmap-xxhdpi" = p then
        some (.image ((Image.resize K img 144 144 .lanczos).withFormat
          "PNG"))
      else if outPath "mipmap-xhdpi" = p then
        some (.image ((Image.resize K img 96 96 .lanczos).withFormat
          "PNG"))
      else if outPath "mipmap-hdpi" = p then
        some (.image ((Image.resize K img 72 72 .lanczos).withFormat
          "PNG"))
      else if outPath "mipmap-mdpi" = p then
        some (.image ((Image.resize K img 48 48 .lanczos).withFormat
          "PNG"))
      else fs.readFile p := by
  simp only [runFS, FS.readFile_setFile, FS.readFile_addDir]

theorem runFS_target_file (K : Resample) (img : Image) (fs : FS)
    (folder : String) (size : Nat) (hmem : (folder, size) ∈ densities) :
    (runFS K img fs).readFile (outPath folder) =
      some (.image ((Image.resize K img size size .lanczos).withFormat
        "PNG")) := by
  rw [readFile_runFS]
  simp only [densities, List.mem_cons, List.not_mem_nil, or_false,
    Prod.mk.injEq] at hmem
  rcases hmem with ⟨rfl, rfl⟩ | ⟨rfl, rfl⟩ | ⟨rfl, rfl⟩ | ⟨rfl, rfl⟩ |
    ⟨rfl, rfl⟩
  · rw [if_neg (by decide), if_neg (by decide), if_neg (by decide),
      if_neg (by decide), if_pos rfl]
  · rw [if_neg (by decide), if_neg (by decide), if_neg (by decide),
      if_pos rfl]
  · rw [if_neg (by decide), if_neg (by decide), if_pos rfl]
  · rw [if_neg (by decide), if_pos rfl]
  · rw [if_pos rfl]

theorem runFS_other_file (K : Resample) (img : Image) (fs : FS)
    (p : String)
    (hp : ∀ folder size, (folder, size) ∈ densities →
      ¬ p = outPath folder) :
    (runFS K img fs).readFile p = fs.readFile p := by
  rw [readFile_runFS]
  rw [if_neg (fun h => hp "mipmap-xxxhdpi" 192 (by simp [densities])
      h.symm),
    if_neg (fun h => hp "mipmap-xxhdpi" 144 (by simp [densities]) h.symm),
    if_neg (fun h => hp "mipmap-xhdpi" 96 (by simp [densities]) h.symm),
    if_neg (fun h => hp "mipmap-hdpi" 72 (by simp [densities]) h.symm),
    if_neg (fun h => hp "mipmap-mdpi" 48 (by simp [densities]) h.symm)]

/-- Claim C2: on a valid source image and a non-faulting environment the
resizer returns `true`, writes exactly the five `ic_launcher.png` files
— each the Lanczos resize of the source to its target's square size in
its density directory — and touches no other path. -/
theorem claim_C2 (K : Resample) (img : Image) (fs : FS)
    (h1 : fs.fileExists "logo.png" = true)
    (h2 : fs.pilOpen "logo.png" = .ok img)
    (h3 : fs.failingDirs = []) (h4 : fs.failingWrites = []) :
    (resizeLogo K fs).1 = true ∧
    (∀ folder size, (folder, size) ∈ densities →
      ((resizeLogo K fs).2.1).readFile (outPath folder) =
        some (.image ((Image.resize K img size size .lanczos).withFormat
          "PNG"))) ∧
    (∀ p, (∀ folder size, (folder, size) ∈ densities →
        ¬ p = outPath folder) →
      ((resizeLogo K fs).2.1).readFile p = fs.readFile p) := by
  rw [resizeLogo_run K img fs h1 h2 h3 h4]
  refine ⟨rfl, ?_, ?_⟩
  · intro folder size hmem
    exact runFS_target_file K img fs folder size hmem
  · intro p hp
    exact runFS_other_file K img fs p hp

/-- Witness for C2: the demo logo is resized into the five density
files. -/
theorem claim_C2_witness :
    fsLogo.fileExists "logo.png" = true ∧
    fsLogo.pilOpen "logo.png" = .ok demoLogo ∧
    fsLogo.failingDirs = [] ∧ fsLogo.failingWrites = [] ∧
    (resizeLogo K0 fsLogo).1 = true ∧
    ((resizeLogo K0 fsLogo).2.1).readFile (outPath "mipmap-mdpi") =
      some (.image ((Image.resize K0 demoLogo 48 48 .lanczos).withFormat
        "PNG")) := by
  refine ⟨rfl, rfl, rfl, rfl, ?_, ?_⟩
  · exact (claim_C2 K0 demoLogo fsLogo rfl rfl rfl rfl).1
  · exact (claim_C2 K0 demoLogo fsLogo rfl rfl rfl rfl).2.1 "mipmap-mdpi"
      48 (by simp [densities])

theorem FS.makedirs_ok (fs fs1 : FS) (p : String)
    (h : fs.makedirs p = .ok fs1) : fs1 = fs.addDir p := by
  unfold FS.makedirs at h
  split at h
  · exact absurd h (by simp)
  · injection h with h'
    exact h'.symm

theorem FS.save_ok (fs fs' : FS) (p fmt : String) (img : Image)
    (h : fs.save p img fmt = .ok fs') :
    fs' = fs.setFile p (.image (img.withFormat fmt)) := by
  unfold FS.save at h
  split at h
  · exact absurd h (by simp)
  · injection h with h'
    exact h'.symm

theorem processTargets_mono (K : Resample) (img : Image) :
    ∀ (L : List (String × Nat)) (fs : FS) (p : String),
      fs.fileExists p = true →
      ((processTargets K img L fs).1).fileExists p = true := by
  intro L
  induction L with
  | nil => intro fs p h; exact h
  | cons t rest ih =>
      intro fs p h
      obtain ⟨folder, size⟩ := t
      rcases hmk : fs.makedirs (resDir folder) with e | fs1
      · simp only [processTargets, hmk]
        exact h
      · have hfs1 : fs1 = fs.addDir (resDir folder) :=
          FS.makedirs_ok fs fs1 (resDir folder) hmk
        rcases hsv : fs1.save (outPath folder)
            (Image.resize K img size size .lanczos) "PNG" with e | fs2
        · simp only [processTargets, hmk, hsv]
          rw [hfs1, FS.fileExists_addDir]
          exact h
        · have hfs2 := FS.save_ok fs1 fs2 (outPath folder) "PNG"
            (Image.resize K img size size .lanczos) hsv
          have h2 : fs2.fileExists p = true := by
            rw [hfs2, FS.fileExists_setFile]
            split
            · rfl
            · rw [hfs1, FS.fileExists_addDir]
              exact h
          have := ih fs2 p h2
          simp only [processTargets, hmk, hsv]
          rcases hpt : processTargets K img rest fs2 with ⟨fs3, evs, err⟩
          rw [hpt] at this
          exact this

theorem processTargets_writes_persist (K : Resample) (img : Image) :
    ∀ (L : List (String × Nat)) (fs : FS) (p : String),
      Event.write p ∈ (processTargets K img L fs).2.1 →
      ((processTargets K img L fs).1).fileExists p = true := by
  intro L
  induction L with
  | nil =>
      intro fs p h
      simp [processTargets] at h
  | cons t rest ih =>
      intro fs p h
      obtain ⟨folder, size⟩ := t
      rcases hmk : fs.makedirs (resDir folder) with e | fs1
      · simp only [processTargets, hmk] at h
        simp at h
      · have hfs1 : fs1 = fs.addDir (resDir folder) :=
          FS.makedirs_ok fs fs1 (resDir folder) hmk
        rcases hsv : fs1.save (outPath folder)
            (Image.resize K img size size .lanczos) "PNG" with e | fs2
        · simp only [processTargets, hmk, hsv] at h
          simp at h
        · have hfs2 := FS.save_ok fs1 fs2 (outPath folder) "PNG"
            (Image.resize K img size size .lanczos) hsv
          rcases hpt : processTargets K img rest fs2 with ⟨fs3, evs, err⟩
          simp only [processTargets, hmk, hsv, hpt] at h ⊢
          simp only [List.mem_cons] at h
          rcases h with h | h | h
          · exact absurd h (by simp)
          · have hout : p = outPath folder := by
              simpa using h
            rw [hout]
            have hex2 : fs2.fileExists (outPath folder) = true := by
              rw [hfs2, FS.fileExists_setFile, if_pos rfl]
            have hmono := processTargets_mono K img rest fs2
              (outPath folder) hex2
            rw [hpt] at hmono
            exact hmono
          · have := ih fs2 p (by rw [hpt]; exact h)
            rw [hpt] at this
            exact this

/-- Claim C3: once `logo.png` exists, any exception — a decode failure
when opening, or an error raised by directory creation or a file write
inside the loop — is caught at the top level and converted into the
return value `false`, and every output file whose write completed before
the failure is still present in the final file system (no rollback). -/
theorem claim_C3 (K : Resample) (fs : FS) (img : Image) (e : PyErr)
    (hex : fs.fileExists "logo.png" = true) :
    (fs.pilOpen "logo.png" = .error e →
      resizeLogo K fs = (false, fs, [])) ∧
    (fs.pilOpen "logo.png" = .ok img →
      (processTargets K img densities fs).2.2 = some e →
      resizeLogo K fs = (false, (processTargets K img densities fs).1,
        (processTargets K img densities fs).2.1) ∧
      ∀ p, Event.write p ∈ (processTargets K img densities fs).2.1 →
        ((processTargets K img densities fs).1).fileExists p = true) := by
  constructor
  · intro hopen
    simp [resizeLogo, hex, hopen]
  · intro hopen herr
    constructor
    · rcases hpt : processTargets K img densities fs with ⟨fs1, evs, err⟩
      rw [hpt] at herr
      simp only at herr
      subst herr
      simp [resizeLogo, hex, hopen, hpt]
    · intro p hw
      exact processTargets_writes_persist K img densities fs p hw

/-- Witness for C3: the write of the second target faults; the run
returns `false` and the first target's output file is still present. -/
theorem claim_C3_witness :
    fsLogoBadWrite.fileExists "logo.png" = true ∧
    fsLogoBadWrite.pilOpen "logo.png" = .ok demoLogo ∧
    (processTargets K0 demoLogo densities fsLogoBadWrite).2.2 =
      some (.ioFailure (outPath "mipmap-hdpi")) ∧
    resizeLogo K0 fsLogoBadWrite =
      (false, (processTargets K0 demoLogo densities fsLogoBadWrite).1,
        (processTargets K0 demoLogo densities fsLogoBadWrite).2.1) ∧
    ((processTargets K0 demoLogo densities fsLogoBadWrite).1).fileExists
      (outPath "mipmap-mdpi") = true := by
  refine ⟨rfl, rfl, by decide, ?_, ?_⟩
  · exact ((claim_C3 K0 fsLogoBadWrite demoLogo
      (.ioFailure (outPath "mipmap-hdpi")) rfl).2 rfl (by decide)).1
  · exact ((claim_C3 K0 fsLogoBadWrite demoLogo
      (.ioFailure (outPath "mipmap-hdpi")) rfl).2 rfl (by decide)).2
      (outPath "mipmap-mdpi") (by decide)

theorem containsStr_cons (a p : String) (l : List String) :
    containsStr (a :: l) p = if a = p then true else containsStr l p :=
  rfl

theorem containsStr_addDir (fs : FS) (p q : String) :
    containsStr (fs.addDir p).dirs q =
      if q = p then true else containsStr fs.dirs q := by
  unfold FS.addDir
  simp only
  by_cases hc : containsStr fs.dirs p = true
  · rw [if_pos hc]
    by_cases hq : q = p
    · rw [if_pos hq, hq]
      exact hc
    · rw [if_neg hq]
  · rw [if_neg hc, containsStr_cons]
    by_cases hq : q = p
    · rw [if_pos hq, if_pos hq.symm]
    · rw [if_neg hq, if_neg (fun h => hq h.symm)]

theorem containsStr_runFS_dirs (K : Resample) (img : Image) (fs : FS)
    (d : String) :
    containsStr (runFS K img fs).dirs d =
      if d = resDir "mipmap-xxxhdpi" then true
      else if d = resDir "mipmap-xxhdpi" then true
      else if d = resDir "mipmap-xhdpi" then true
      else if d = resDir "mipmap-hdpi" then true
      else if d = resDir "mipmap-mdpi" then true
      else containsStr fs.dirs d := by
  simp only [runFS, FS.dirs_setFile, containsStr_addDir]

theorem logo_not_outPath :
    ∀ folder size, (folder, size) ∈ densities →
      ¬ ("logo.png" : String) = outPath folder := by
  intro folder size hmem
  simp only [densities, List.mem_cons, List.not_mem_nil, or_false,
    Prod.mk.injEq] at hmem
  rcases hmem with ⟨rfl, rfl⟩ | ⟨rfl, rfl⟩ | ⟨rfl, rfl⟩ | ⟨rfl, rfl⟩ |
    ⟨rfl, rfl⟩ <;> decide

theorem runFS_failingDirs (K : Resample) (img : Image) (fs : FS) :
    (runFS K img fs).failingDirs = fs.failingDirs := by
  simp only [runFS, FS.failingDirs_setFile, FS.failingDirs_addDir]

theorem runFS_failingWrites (K : Resample) (img : Image) (fs : FS) :
    (runFS K img fs).failingWrites = fs.failingWrites := by
  simp only [runFS, FS.failingWrites_setFile, FS.failingWrites_addDir]

theorem runFS_pilOpen_logo (K : Resample) (img : Image) (fs : FS)
    (h2 : fs.pilOpen "logo.png" = .ok img) :
    (runFS K img fs).pilOpen "logo.png" = .ok img := by
  rw [FS.pilOpen_ok_iff] at h2 ⊢
  rw [runFS_other_file K img fs "logo.png" logo_not_outPath]
  exact h2

/-- Claim C8: running the resizer a second time on the unchanged
`logo.png` and the state produced by a first successful run succeeds
again, tolerates the already-existing output directories, overwrites
each output file with identical content, and leaves every file and every
directory-existence fact exactly as after the first run. -/
theorem claim_C8 (K : Resample) (img : Image) (fs : FS)
    (h1 : fs.fileExists "logo.png" = true)
    (h2 : fs.pilOpen "logo.png" = .ok img)
    (h3 : fs.failingDirs = []) (h4 : fs.failingWrites = []) :
    (resizeLogo K (resizeLogo K fs).2.1).1 = true ∧
    (∀ p, ((resizeLogo K (resizeLogo K fs).2.1).2.1).readFile p =
      ((resizeLogo K fs).2.1).readFile p) ∧
    (∀ d, containsStr ((resizeLogo K (resizeLogo K fs).2.1).2.1).dirs d =
      containsStr ((resizeLogo K fs).2.1).dirs d) := by
  have h2' := runFS_pilOpen_logo K img fs h2
  have h1' := FS.fileExists_of_pilOpen (runFS K img fs) "logo.png" img h2'
  have h3' : (runFS K img fs).failingDirs = [] := by
    rw [runFS_failingDirs]
    exact h3
  have h4' : (runFS K img fs).failingWrites = [] := by
    rw [runFS_failingWrites]
    exact h4
  rw [resizeLogo_run K img fs h1 h2 h3 h4]
  simp only
  rw [resizeLogo_run K img (runFS K img fs) h1' h2' h3' h4']
  simp only
  refine ⟨trivial, ?_, ?_⟩
  · intro p
    rw [readFile_runFS K img (runFS K img fs) p]
    split_ifs with c5 c4 c3' c2' c1'
    · rw [← c5]
      exact (runFS_target_file K img fs "mipmap-xxxhdpi" 192
        (by simp [densities])).symm
    · rw [← c4]
      exact (runFS_target_file K img fs "mipmap-xxhdpi" 144
        (by simp [densities])).symm
    · rw [← c3']
      exact (runFS_target_file K img fs "mipmap-xhdpi" 96
        (by simp [densities])).symm
    · rw [← c2']
      exact (runFS_target_file K img fs "mipmap-hdpi" 72
        (by simp [densities])).symm
    · rw [← c1']
      exact (runFS_target_file K img fs "mipmap-mdpi" 48
        (by simp [densities])).symm
    · rfl
  · intro d
    rw [containsStr_runFS_dirs K img (runFS K img fs) d,
      containsStr_runFS_dirs K img fs d]
    split_ifs <;> rfl

/-- Witness for C8: re-running on the demo state. -/
theorem claim_C8_witness :
    fsLogo.fileExists "logo.png" = true ∧
    fsLogo.pilOpen "logo.png" = .ok demoLogo ∧
    (resizeLogo K0 (resizeLogo K0 fsLogo).2.1).1 = true ∧
    ((resizeLogo K0 (resizeLogo K0 fsLogo).2.1).2.1).readFile
        (outPath "mipmap-mdpi") =
      ((resizeLogo K0 fsLogo).2.1).readFile (outPath "mipmap-mdpi") := by
  refine ⟨rfl, rfl, ?_, ?_⟩
  · exact (claim_C8 K0 demoLogo fsLogo rfl rfl rfl rfl).1
  · exact (claim_C8 K0 demoLogo fsLogo rfl rfl rfl rfl).2.1
      (outPath "mipmap-mdpi")

/-- Claim C9: the resizer handles the five targets one at a time in the
declared order (mdpi 48, hdpi 72, xhdpi 96, xxhdpi 144, xxxhdpi 192),
and for each target the directory creation and the file write both
complete before any action of the next target: on a successful run the
action trace is exactly the interleaved mkdir/write list in that
order. -/
theorem claim_C9 (K : Resample) (img : Image) (fs : FS)
    (h1 : fs.fileExists "logo.png" = true)
    (h2 : fs.pilOpen "logo.png" = .ok img)
    (h3 : fs.failingDirs = []) (h4 : fs.failingWrites = []) :
    (resizeLogo K fs).2.2 =
      [.mkdir (resDir "mipmap-mdpi"), .write (outPath "mipmap-mdpi"),
       .mkdir (resDir "mipmap-hdpi"), .write (outPath "mipmap-hdpi"),
       .mkdir (resDir "mipmap-xhdpi"), .write (outPath "mipmap-xhdpi"),
       .mkdir (resDir "mipmap-xxhdpi"), .write (outPath "mipmap-xxhdpi"),
       .mkdir (resDir "mipmap-xxxhdpi"),
       .write (outPath "mipmap-xxxhdpi")] := by
  rw [resizeLogo_run K img fs h1 h2 h3 h4]
  rfl

/-- Witness for C9: the demo run produces the trace in declared order. -/
theorem claim_C9_witness :
    fsLogo.fileExists "logo.png" = true ∧
    fsLogo.pilOpen "logo.png" = .ok demoLogo ∧
    (resizeLogo K0 fsLogo).2.2 =
      [.mkdir (resDir "mipmap-mdpi"), .write (outPath "mipmap-mdpi"),
       .mkdir (resDir "mipmap-hdpi"), .write (outPath "mipmap-hdpi"),
       .mkdir (resDir "mipmap-xhdpi"), .write (outPath "mipmap-xhdpi"),
       .mkdir (resDir "mipmap-xxhdpi"), .write (outPath "mipmap-xxhdpi"),
       .mkdir (resDir "mipmap-xxxhdpi"),
       .write (outPath "mipmap-xxxhdpi")] :=
  ⟨rfl, rfl, claim_C9 K0 demoLogo fsLogo rfl rfl rfl rfl⟩

/-- Claim C10: each of the five outputs keeps the decoded source's color
mode — the resizer never strips transparency, so an `RGBA` source yields
five `RGBA` outputs. -/
theorem claim_C10 (K : Resample) (img : Image) (fs : FS)
    (h1 : fs.fileExists "logo.png" = true)
    (h2 : fs.pilOpen "logo.png" = .ok img)
    (h3 : fs.failingDirs = []) (h4 : fs.failingWrites = []) :
    ∀ folder size, (folder, size) ∈ densities →
      ∀ i, ((resizeLogo K fs).2.1).readFile (outPath folder) =
          some (.image i) →
        i.mode = img.mode ∧ (img.mode.hasAlpha = true →
          i.mode.hasAlpha = true) := by
  intro folder size hmem i hread
  rw [resizeLogo_run K img fs h1 h2 h3 h4] at hread
  rw [runFS_target_file K img fs folder size hmem] at hread
  have hi : i = (Image.resize K img size size .lanczos).withFormat "PNG"
    := by
    injection hread with h'
    injection h' with h''
    exact h''.symm
  subst hi
  constructor
  · rfl
  · intro ha
    rw [Image.mode_withFormat]
    exact ha

/-- Witness for C10: the RGBA demo logo keeps its alpha-carrying mode in
the mdpi output. -/
theorem claim_C10_witness :
    demoLogo.mode.hasAlpha = true ∧
    ("mipmap-mdpi", 48) ∈ densities ∧
    ((resizeLogo K0 fsLogo).2.1).readFile (outPath "mipmap-mdpi") =
      some (.image ((Image.resize K0 demoLogo 48 48 .lanczos).withFormat
        "PNG")) ∧
    ((Image.resize K0 demoLogo 48 48 .lanczos).withFormat "PNG").mode =
      demoLogo.mode := by
  refine ⟨rfl, by simp [densities], ?_, ?_⟩
  · rw [resizeLogo_run K0 demoLogo fsLogo rfl rfl rfl rfl]
    exact runFS_target_file K0 demoLogo fsLogo "mipmap-mdpi" 48
      (by simp [densities])
  · exact (claim_C10 K0 demoLogo fsLogo rfl rfl rfl rfl "mipmap-mdpi" 48
      (by simp [densities])
      ((Image.resize K0 demoLogo 48 48 .lanczos).withFormat "PNG")
      (by
        rw [resizeLogo_run K0 demoLogo fsLogo rfl rfl rfl rfl]
        exact runFS_target_file K0 demoLogo fsLogo "mipmap-mdpi" 48
          (by simp [densities]))).1

/-- Witness for C4: the empty file system. -/
theorem claim_C4_witness :
    fsEmpty.fileExists iconPath = false ∧
    fsEmpty.fileExists "logo.png" = false ∧
    fixIconTransparency fsEmpty =
      .ok (fsEmpty, "❌ Icon file not found: " ++ iconPath) ∧
    resizeLogo K0 fsEmpty = (false, fsEmpty, []) := by
  refine ⟨rfl, rfl, ?_, ?_⟩
  · exact (claim_C4 K0 fsEmpty fsEmpty rfl rfl).1
  · exact (claim_C4 K0 fsEmpty fsEmpty rfl rfl).2

end Jumpz
